import Mathlib

/-!
Verification of the CARL AutoPkg wrapper (autopkg_tools.py and the
CacheRecipeMetadata post-processor) against its natural-language
specification.  The Python code is shallowly embedded: pure fragments become
Lean functions, filesystem / subprocess interaction is an explicit
environment of oracles, and Python exceptions become an Except monad over an
explicit error type.
-/

namespace CARL

/-- Python exception values that the embedded code can raise. -/
inductive PyErr
  | typeError
  | valueError
  | calledProcessError
  | keyError
  | indexError
  | oserror
  | stopIteration
  | nonTermination
  deriving DecidableEq

/-! ## Python string primitives

The wrapper manipulates paths with str.find, str.rfind, slicing,
str.replace, os.path.split, os.path.join, str.endswith and pathlib parents.
These are modelled here with Python semantics. -/

/-- Helper for str.find: first index at which sub occurs in s, scanning left. -/
def pyFindGo (sub : List Char) : List Char → Nat → Option Nat
  | [], i => if sub.isPrefixOf ([] : List Char) then some i else none
  | c :: t, i => if sub.isPrefixOf (c :: t) then some i else pyFindGo sub t (i + 1)

/-- Python str.find: lowest index where sub occurs, or -1. -/
def pyFind (s sub : String) : Int :=
  match pyFindGo sub.data s.data 0 with
  | some i => Int.ofNat i
  | none => -1

/-- Helper for str.rfind: highest index at which sub occurs. -/
def pyRfindGo (sub : List Char) : List Char → Nat → Option Nat
  | [], i => if sub.isPrefixOf ([] : List Char) then some i else none
  | c :: t, i =>
    match pyRfindGo sub t (i + 1) with
    | some j => some j
    | none => if sub.isPrefixOf (c :: t) then some i else none

/-- Python str.rfind: highest index where sub occurs, or -1. -/
def pyRfind (s sub : String) : Int :=
  match pyRfindGo sub.data s.data 0 with
  | some i => Int.ofNat i
  | none => -1

/-- Python substring test, as used for fnmatch with a star-sub-star pattern. -/
def strContains (s sub : String) : Bool := pyFind s sub != -1

/-- Python slice s[a:b] with negative-index normalisation and clamping. -/
def pySlice (s : String) (a b : Int) : String :=
  let n : Int := Int.ofNat s.data.length
  let norm : Int → Nat := fun i => if i < 0 then (max (n + i) 0).toNat else (min i n).toNat
  ⟨(s.data.drop (norm a)).take (norm b - norm a)⟩

/-- Fuel-driven core of Python str.replace (fuel is the remaining length). -/
def pyReplaceGo (old new : List Char) : Nat → List Char → List Char
  | _, [] => []
  | 0, s => s
  | fuel + 1, c :: rest =>
    if old.isPrefixOf (c :: rest) then new ++ pyReplaceGo old new fuel ((c :: rest).drop old.length)
    else c :: pyReplaceGo old new fuel rest

/-- Python str.replace: replaces every non-overlapping occurrence left to
right; an empty pattern inserts the replacement at every position. -/
def pyReplace (s old new : String) : String :=
  if old.data = [] then ⟨new.data ++ s.data.flatMap (fun c => c :: new.data)⟩
  else ⟨pyReplaceGo old.data new.data s.data.length s.data⟩

/-- Drop trailing slash characters, as str.rstrip with a slash argument. -/
def rstripSlashes (s : String) : String := ⟨(s.data.reverse.dropWhile (· == '/')).reverse⟩

/-- posixpath.split: split a pathname into (head, tail) at the final slash,
stripping trailing slashes from a head that is not all slashes. -/
def pySplit (p : String) : String × String :=
  let i : Int := pyRfind p "/" + 1
  let head := pySlice p 0 i
  let tail := pySlice p i (Int.ofNat p.data.length)
  let head := if head.data ≠ [] ∧ head.data.any (fun c => c != '/') then rstripSlashes head else head
  (head, tail)

/-- posixpath.join for two components. -/
def pyJoin (a b : String) : String :=
  if b.data.head? = some '/' then b
  else if a.data = [] ∨ a.data.getLast? = some '/' then a ++ b
  else a ++ "/" ++ b

/-- Python str.endswith. -/
def pyEndswith (s suf : String) : Bool := List.isSuffixOf suf.data s.data

/-- pathlib PurePosixPath.parent on normalised path strings: drop trailing
slashes and cut at the final slash; the parent of the root is the root and
a slashless name has parent dot. -/
def pyPathParent (p : String) : String :=
  if p.data = [] then "."
  else if p.data.all (fun c => c == '/') then "/"
  else
    let q := rstripSlashes p
    let j := pyRfind q "/"
    if j < 0 then "."
    else if j = 0 then "/"
    else pySlice q 0 j

/-- Iterated parent, used to phrase claims about the upward directory walk. -/
def parentIter : Nat → String → String
  | 0, p => p
  | n + 1, p => parentIter n (pyPathParent p)

/-- Python truthiness of an optional string: None and the empty string are
falsy. -/
def truthyS (o : Option String) : Bool := o.getD "" != ""

/-- Python f-string rendering of an optional value: None prints as None. -/
def pyFormatOpt (o : Option String) : String := o.getD "None"

/-! ## Data model

A DownloadRecord as consumed by the replicator and produced by the recorder;
only the five keys below are ever read from it. -/

/-- One recorded or observed download (a cached download-metadata dict). -/
structure DlMd where
  url : Option String := none
  pathname : Option String := none
  etag : Option String := none
  last_modified : Option String := none
  dl_size_in_bytes : Option String := none
  deriving DecidableEq

/-- A cache entry for one recipe file name. -/
structure CacheEntry where
  cache_timestamp : Option String := none
  download_metadata : Option (List DlMd) := none
  deriving DecidableEq

/-- The cross-run metadata cache: an insertion-ordered mapping from recipe
file name to entry, as a Python dict round-tripped through JSON. -/
abbrev CacheData := List (String × CacheEntry)

/-- Python dict assignment: overwrite in place if the key exists, else append. -/
def aset (d : CacheData) (k : String) (v : CacheEntry) : CacheData :=
  match d with
  | [] => [(k, v)]
  | (k', v') :: t => if k' = k then (k, v) :: t else (k', v') :: aset t k v

/-- Update the entry stored under an existing key in place. -/
def updateEntry (d : CacheData) (k : String) (f : CacheEntry → CacheEntry) : CacheData :=
  match d with
  | [] => []
  | (k', v') :: t => if k' = k then (k', f v') :: t else (k', v') :: updateEntry t k f

/-! ## CacheStore

The on-disk state of a JSON file is modelled as
none (missing), some none (present but malformed), or
some (some d) (present and decoding to the mapping d). -/

/-- load_cached_attributes from autopkg_tools.py: json-load the metadata
cache; only FileNotFoundError is caught (treat as new build), so malformed
content propagates the json.JSONDecodeError, a ValueError. -/
def load_cached_attributes (fs : Option (Option CacheData)) : Except PyErr CacheData :=
  match fs with
  | none => .ok []
  | some none => .error .valueError
  | some (some d) => .ok d

/-- CacheRecipeMetadata.get_latest_recipe_run_info: json-load the output
file, catching OSError and ValueError and returning an empty mapping. -/
def get_latest_recipe_run_info (fs : Option (Option CacheData)) : CacheData :=
  match fs with
  | none => []
  | some none => []
  | some (some d) => d

/-! ## PlaceholderReplicator (create_file_and_attributes)

Shell interaction happens through _run_command with check=True, so a
non-zero exit becomes a CalledProcessError.  The environment carries the
console user answered by stat and an exit-status oracle for each command
string. -/

/-- Log records emitted while replicating placeholder files. -/
inductive LogMsg
  | debug (s : String)
  | info (s : String)
  | critical (s : String)
  deriving DecidableEq

/-- Environment for the replicator: the logged-in console user reported by
stat, and which shell command strings exit non-zero (check=True turns those
into CalledProcessError). -/
structure ReplEnv where
  consoleUser : String
  cmdFails : String → Bool

/-- The stat invocation used to resolve the console user. -/
def statConsoleCmd : String := "/usr/bin/stat -f%Su /dev/console"

/-- _run_command from autopkg_tools.py: run a shell command with check=True;
a non-zero exit raises CalledProcessError, otherwise stdout is returned. -/
def run_shell_command (env : ReplEnv) (cmd : String) : Except PyErr String :=
  if env.cmdFails cmd then .error .calledProcessError
  else .ok (if cmd = statConsoleCmd then env.consoleUser else "")

/-- The home-directory short name recorded in a cached directory path: the
slice between the /Users/ marker and the last /Library marker, via
str.find, str.rfind and Python slicing. -/
def targetHomeDir (cache_path : String) : String :=
  pySlice cache_path (pyFind cache_path "/Users/" + Int.ofNat ("/Users/").data.length)
    (pyRfind cache_path "/Library")

/-- The conditional home-directory rewrite from create_file_and_attributes:
when the recorded short name differs from the console user, replace every
occurrence of it in both the containing directory and the file path.  (The
source also guards on neither value being None; both are always strings
here, so that guard is vacuous.) -/
def homeDirRewrite (console_user cache_path pathname : String) : String × String :=
  let thd := targetHomeDir cache_path
  if thd ≠ console_user then
    (pyReplace cache_path thd console_user, pyReplace pathname thd console_user)
  else (cache_path, pathname)

/-- Render a download record the way the critical log interpolates it. -/
def renderDlMd (m : DlMd) : String :=
  "url=" ++ pyFormatOpt m.url ++ " pathname=" ++ pyFormatOpt m.pathname ++
    " etag=" ++ pyFormatOpt m.etag ++ " last_modified=" ++ pyFormatOpt m.last_modified ++
    " dl_size_in_bytes=" ++ pyFormatOpt m.dl_size_in_bytes

/-- The critical log written when a record raises a TypeError mid-step:
it names the offending recipe key and the record. -/
def criticalLog (key : String) (md : DlMd) : LogMsg :=
  .critical ("Issue when populating recipe \x27" ++ key ++ "\x27 metadata! Record: " ++ renderDlMd md)

/-- The body of the per-record try block in create_file_and_attributes:
split the pathname (TypeError when it is None), rewrite the home directory
for the console user, create the sparse file with mkfile, and write each
provenance attribute that is present (logging a skip otherwise). -/
def processRecord (env : ReplEnv) (key : String) (dl_md : DlMd) : Except PyErr (List LogMsg) :=
  match dl_md.pathname with
  | none => .error .typeError
  | some pn => do
    let cache_path := (pySplit pn).1
    let console_user ← run_shell_command env statConsoleCmd
    let (_cache_path, pathname) := homeDirRewrite console_user cache_path pn
    let sizeStr := pyFormatOpt dl_md.dl_size_in_bytes
    let _ ← run_shell_command env ("mkfile -n \x27" ++ sizeStr ++ "\x27 \x27" ++ pathname ++ "\x27")
    let etagLog ←
      if truthyS dl_md.etag then do
        let _ ← run_shell_command env
          ("xattr -w com.github.autopkg.etag \x27" ++ dl_md.etag.getD "" ++ "\x27 \x27" ++ pathname ++ "\x27")
        pure ([] : List LogMsg)
      else pure [LogMsg.info ("Skipping write of attribute \x27etag\x27 for " ++ key ++ "; key is missing")]
    let lmLog ←
      if truthyS dl_md.last_modified then do
        let _ ← run_shell_command env
          ("xattr -w com.github.autopkg.last-modified \x27" ++ dl_md.last_modified.getD "" ++ "\x27 \x27" ++ pathname ++ "\x27")
        pure ([] : List LogMsg)
      else pure [LogMsg.info ("Skipping write of attribute \x27last_modified\x27 for " ++ key ++ "; key is missing")]
    .ok (etagLog ++ lmLog ++ [LogMsg.info ("Wrote file with xattrs and byte size " ++ sizeStr ++ " to " ++ pathname)])

/-- The inner for loop of create_file_and_attributes over one recipe's
records: a TypeError from a record is caught and logged and the loop
continues; any other exception propagates and aborts the loop. -/
def runRecords (env : ReplEnv) (key : String) : List DlMd → List LogMsg × Option PyErr
  | [] => ([], none)
  | md :: rest =>
    match processRecord env key md with
    | .ok logs =>
      let (l, e) := runRecords env key rest
      (logs ++ l, e)
    | .error .typeError =>
      let (l, e) := runRecords env key rest
      (criticalLog key md :: l, e)
    | .error e => ([], some e)

/-- create_file_and_attributes: replicate every cached record of every
recipe.  Iterating a missing download_metadata value raises TypeError
outside the per-record try block. -/
def create_file_and_attributes (env : ReplEnv) : CacheData → List LogMsg × Option PyErr
  | [] => ([], none)
  | (key, entry) :: rest =>
    match entry.download_metadata with
    | none => ([], some .typeError)
    | some mds =>
      let (l, e) := runRecords env key mds
      match e with
      | some err => (l, some err)
      | none =>
        let (l', e') := create_file_and_attributes env rest
        (l ++ l', e')

/-! ## ReportParser (Recipe._parse_report)

A report is the plist the external tool writes: a failures row list and a
summary_results mapping from processor identifier to a dict from which only
the data_rows key and dict truthiness are consulted.  Rows are
insertion-ordered dicts of strings. -/

/-- One row of a summary result or failure list. -/
abbrev Row := List (String × String)

/-- The value stored under one summary_results key. -/
abbrev SummaryVal := List (String × List Row)

set_option synthInstance.maxSize 1024 in
instance instDecEqSummaryList : DecidableEq (List (String × SummaryVal)) := inferInstance

/-- A completion report: failures plus summary results (an absent
summary_results key and an empty one behave identically). -/
structure Report where
  failures : List Row := []
  summary_results : List (String × SummaryVal) := []
  deriving DecidableEq

/-- Parsed outcome of one run. -/
structure RunOutcome where
  built : List Row := []
  downloaded : List Row := []
  failed : List Row := []
  deriving DecidableEq

/-- data_rows of a summary value, defaulting to the empty list. -/
def getRows (v : SummaryVal) : List Row := (List.lookup "data_rows" v).getD []

/-- The summary_results keys matching the fnmatch pattern star-pkg-star,
in insertion order. -/
def pkgMatchingKeys (sr : List (String × SummaryVal)) : List String :=
  (sr.map (fun p => p.1)).filter (fun k => strContains k "pkg")

/-- Python str.join with the empty separator over the matching keys. -/
def joinKeys (l : List String) : String := l.foldl (fun a b => a ++ b) ""

/-- next(iter(row.values())): first value of a row dict, StopIteration when
the row is empty. -/
def rowFirstVal : Row → Except PyErr String
  | [] => .error .stopIteration
  | (_, v) :: _ => .ok v

/-- The fringe-build scan: join the first value of every downloaded row
whose first value matches star-pkg-star. -/
def fringeScanGo : List Row → Except PyErr String
  | [] => .ok ""
  | r :: t => do
    let v ← rowFirstVal r
    let rest ← fringeScanGo t
    .ok (if strContains v "pkg" then v ++ rest else rest)

/-- The built row appended by the fringe-build promotion, depending on what
the receipt scan resolved (Python truthiness on both values). -/
def fringeRow (fringe : String) (rp rv : Option String) : Row :=
  if truthyS rp ∧ truthyS rv then [("pkg_path", rp.getD ""), ("version", rv.getD "")]
  else if truthyS rv then [("pkg_path", fringe), ("version", rv.getD "")]
  else [("pkg_path", fringe)]

/-- The fringe branch of _parse_report, entered when downloads exist but no
package summary rows were found; the receipt scanner is an oracle from the
download path to the (pkg_path, version) pair it recovers. -/
def fringePath (rs : String → Option String × Option String) (rd : Report)
    (pkg_results dl_results : SummaryVal) : Except PyErr RunOutcome :=
  match List.lookup "data_rows" dl_results with
  | none => .error .typeError
  | some rows =>
    match fringeScanGo rows with
    | .error e => .error e
    | .ok fringe =>
      if fringe ≠ "" then
        .ok { built := getRows pkg_results ++ [fringeRow fringe (rs fringe).1 (rs fringe).2],
              downloaded := getRows dl_results, failed := rd.failures }
      else .ok { built := getRows pkg_results, downloaded := getRows dl_results, failed := rd.failures }

/-- Recipe._parse_report: classify a report into built, downloaded and
failed rows.  The package summary key is found by joining every key that
matches star-pkg-star, and the fringe-build promotion fires only when
download rows exist while the package summary lookup came back empty. -/
def parse_report (rs : String → Option String × Option String) (rd : Report) :
    Except PyErr RunOutcome :=
  if rd.summary_results = [] then .ok { failed := rd.failures }
  else
    let pkg_results := (List.lookup (joinKeys (pkgMatchingKeys rd.summary_results)) rd.summary_results).getD []
    let dl_results := (List.lookup "url_downloader_summary_result" rd.summary_results).getD []
    if dl_results ≠ [] ∧ pkg_results = [] then fringePath rs rd pkg_results dl_results
    else .ok { built := getRows pkg_results, downloaded := getRows dl_results, failed := rd.failures }

/-! ## RecipeRunner (Recipe.run) -/

/-- The mutable flags of a Recipe object; results none models the initial
empty dict. -/
structure RecipeState where
  success : Bool := false
  error : Bool := false
  results : Option RunOutcome := none
  has_run : Bool := false
  deriving DecidableEq

/-- Recipe.run: invoke the external tool (cmdFailed says whether the
subprocess exited non-zero, which is caught and sets the error flag), then
unconditionally parse the report and set success when built is non-empty. -/
def Recipe.run (rs : String → Option String × Option String) (cmdFailed : Bool)
    (report : Report) (st : RecipeState) : Except PyErr RecipeState :=
  let st := if cmdFailed then { st with error := true } else st
  let st := { st with has_run := true }
  match parse_report rs report with
  | .error e => .error e
  | .ok out =>
    .ok (if out.built ≠ [] then { st with results := some out, success := true }
         else { st with results := some out })

/-! ## Notification evaluation (_eval_recipe_results and slack_alert) -/

/-- A Recipe object as seen by the notifier.  found models whether recipe
location succeeded in the constructor: when it did not, reading the name
property raises AttributeError (no path attribute), which the error branch
catches. -/
structure RecipeObj where
  found : Bool := true
  recipe_name : String := ""
  name : String := ""
  success : Bool := false
  error : Bool := false
  results : Option RunOutcome := none
  deriving DecidableEq

/-- Positions of decimal digits in a character list. -/
def digitIdxs (l : List Char) : List Nat :=
  (List.range l.length).filter (fun i => (l.getD i ' ').isDigit)

/-- re.search for the digit-dot-star-digit version pattern on a
newline-free subject: group 0 runs from the first digit to the last digit
provided they are distinct positions, else no match. -/
def pyVersionSearch (s : String) : Option String :=
  match digitIdxs s.data with
  | [] => none
  | i :: rest =>
    let j := (i :: rest).getLast (by simp)
    if i < j then some ⟨(s.data.drop i).take (j - i + 1)⟩ else none

/-- Python str.join with a newline separator. -/
def joinNl : List String → String
  | [] => ""
  | [x] => x
  | x :: y :: t => x ++ "\n" ++ joinNl (y :: t)

/-- _eval_recipe_results: derive the Slack title and description from a
recipe's outcome.  A bare Python return (the no-releases-found path) is
modelled as ok none; every other exit returns a pair of optional strings. -/
def eval_recipe_results (recipe : RecipeObj) : Except PyErr (Option (Option String × Option String)) :=
  if recipe.error then
    if !recipe.found then
      .ok (some (some "ERROR: Unable to locate specified recipe!",
        some ("Skipping run of " ++ recipe.recipe_name ++ "; recipe doesn\x27t exist or name is malformed.")))
    else
      match recipe.results with
      | none => .error .keyError
      | some out =>
        match out.failed with
        | [] => .ok (some (some ("Failed to run " ++ recipe.name), some "Unknown error"))
        | row :: _ =>
          match List.lookup "message" row, List.lookup "traceback" row with
          | some m, some tb =>
            let desc := "ERROR: " ++ m ++ "\nTraceback: " ++ tb ++ "\n"
            if strContains desc "No releases found for repo" then .ok none
            else .ok (some (some ("Failed to run " ++ recipe.name), some desc))
          | _, _ => .error .keyError
  else if recipe.success then
    match recipe.results with
    | none => .error .keyError
    | some out =>
      match out.built.getLast? with
      | none => .error .indexError
      | some lastRow =>
        let last_build := List.lookup "pkg_path" lastRow
        let last_vers := List.lookup "version" lastRow
        match (if truthyS last_vers then some (last_vers.getD "")
               else none : Option String) with
        | some version =>
          let all_builds := joinNl ((out.built.filterMap (fun r => List.lookup "pkg_path" r)).filter (fun s => s != ""))
          .ok (some (some ("SUCCESS: Recipe " ++ recipe.name ++ " packaged new version " ++ version),
            some ("*Build Path(s):*\n " ++ all_builds ++ "\n")))
        | none =>
          match last_build with
          | none => .error .typeError
          | some lb =>
            let version := (pyVersionSearch lb).getD "Unknown"
            let all_builds := joinNl ((out.built.filterMap (fun r => List.lookup "pkg_path" r)).filter (fun s => s != ""))
            .ok (some (some ("SUCCESS: Recipe " ++ recipe.name ++ " packaged new version " ++ version),
              some ("*Build Path(s):*\n " ++ all_builds ++ "\n")))
  else .ok (some (none, none))

/-- slack_alert: skip in debug mode or without a webhook; otherwise unpack
the pair returned by eval_recipe_results (unpacking a bare None raises
TypeError) and post only when title, description and webhook are all
truthy.  The returned Bool records whether an outbound post was attempted. -/
def slack_alert (debug : Bool) (webhook : Option String) (recipe : RecipeObj) : Except PyErr Bool :=
  if debug then .ok false
  else if webhook = none then .ok false
  else
    match eval_recipe_results recipe with
    | .error e => .error e
    | .ok none => .error .typeError
    | .ok (some (t, d)) =>
      if truthyS t && truthyS d && truthyS webhook then .ok true else .ok false

/-! ## MetadataRecorder (CacheRecipeMetadata) -/

/-- find_downloads_dir: walk upward from the provided path until the
current string ends with downloads.  The source loop has no bound and the
parent of the root is the root, so a fuel parameter models the while loop;
none is the spin-forever case. -/
def find_downloads_dir : Nat → String → Option String
  | 0, d => if pyEndswith d "downloads" then some d else none
  | n + 1, d => if pyEndswith d "downloads" then some d else find_downloads_dir n (pyPathParent d)

/-- Environment of the recorder's post-run step: autopkg env values it
reads, the on-disk cache file state, and oracles for getsize, listdir,
os.walk, xattr reads (check=False: empty output means absent), file type
probing, and the current clock rendering. -/
structure RecEnv where
  output_file_path : Option String := none
  output_file_name : String := "autopkg_metadata.json"
  pathname : Option String := none
  recipe_path : Option String := none
  url : Option String := none
  last_modified : Option String := none
  etag : Option String := none
  cacheFile : Option (Option CacheData) := none
  sizeOf : String → Option Nat
  listdir : String → List String
  walkFiles : String → List (String × String)
  xattrEtag : String → String
  xattrLastMod : String → String
  whereFroms : String → String
  fileType : String → String
  now : String

/-- The bonus DownloadRecord assembled in populate_multiple_dls: each field
is set only when its probed value is truthy. -/
def bonusRecord (env : RecEnv) (path : String) (size : Nat) : DlMd :=
  { url := if env.whereFroms path != "" then some (env.whereFroms path) else none,
    pathname := if path != "" then some path else none,
    etag := if env.xattrEtag path != "" then some (env.xattrEtag path) else none,
    last_modified := if env.xattrLastMod path != "" then some (env.xattrLastMod path) else none,
    dl_size_in_bytes := if size != 0 then some (toString size) else none }

/-- The walk of populate_multiple_dls over (root, name) pairs: candidates
larger than 500000 bytes other than the known download are accepted when
they carry a last-modified attribute or an archive or compressed file type. -/
def populateGo (env : RecEnv) (known_dl : String) : List (String × String) → Except PyErr (List DlMd)
  | [] => .ok []
  | (root, name) :: t =>
    let additional_dl_path := pyJoin root name
    match env.sizeOf additional_dl_path with
    | none => .error .oserror
    | some additional_dl_size =>
      match populateGo env known_dl t with
      | .error e => .error e
      | .ok rest =>
        if additional_dl_size > 500000 ∧ additional_dl_path ≠ known_dl then
          if env.xattrLastMod additional_dl_path != "" ∨
              strContains (env.fileType additional_dl_path) "archive" ∨
              strContains (env.fileType additional_dl_path) "compressed" then
            .ok (bonusRecord env additional_dl_path additional_dl_size :: rest)
          else .ok rest
        else .ok rest

/-- populate_multiple_dls: list of bonus records found under the downloads
directory. -/
def populate_multiple_dls (env : RecEnv) (dls_dir known_dl : String) : Except PyErr (List DlMd) :=
  populateGo env known_dl (env.walkFiles dls_dir)

/-- The primary DownloadRecord built from the run's known url, pathname,
etag, last_modified and on-disk size; fields are set only when truthy. -/
def primaryRecord (env : RecEnv) (pn : String) (sz : Nat) : DlMd :=
  { url := if truthyS env.url then env.url else none,
    pathname := if pn != "" then some pn else none,
    etag := if truthyS env.etag then env.etag else none,
    last_modified := if truthyS env.last_modified then env.last_modified else none,
    dl_size_in_bytes := if sz != 0 then some (toString sz) else none }

/-- The entry previously stored for a recipe file name, or a fresh empty
entry when the key was absent (the source inserts an empty dict first). -/
def prevEntry (env : RecEnv) (fn : String) : CacheEntry :=
  (List.lookup fn (get_latest_recipe_run_info env.cacheFile)).getD {}

/-- First mutation of the recorder step: insert an empty entry when the
recipe key was not previously cached. -/
def recorderInsert (env : RecEnv) (fn : String) : CacheData :=
  let data := get_latest_recipe_run_info env.cacheFile
  if List.lookup fn data = none then aset data fn {} else data

/-- Second mutation: stamp the entry with the current time when the step
was marked modified. -/
def recorderStamp (d : CacheData) (env : RecEnv) (fn : String) (cm : Bool) : CacheData :=
  if cm then updateEntry d fn (fun e => { e with cache_timestamp := some env.now }) else d

/-- Third mutation: store the assembled record list when it is non-empty. -/
def recorderStore (d : CacheData) (fn : String) (lst : List DlMd) : CacheData :=
  if lst ≠ [] then updateEntry d fn (fun e => { e with download_metadata := some lst }) else d

/-- The mapping written back to disk at the end of the recorder step: the
loaded cache with the current recipe's key inserted if fresh, stamped when
modified, and carrying the assembled record list. -/
def recorderFinal (env : RecEnv) (fn : String) (cm : Bool) (lst : List DlMd) : CacheData :=
  recorderStore (recorderStamp (recorderInsert env fn) env fn cm) fn lst

/-- CacheRecipeMetadata.main: probe the known pathname's size (TypeError on
a missing pathname value, before anything is written), split the recipe
path to key the cache, collect the primary record and, when more than one
entry sits in the downloads directory, the bonus records, mark the entry
modified when etag, last_modified, a non-zero size or a bonus record was
found, and write the merged mapping back.  Fuel bounds the unbounded
downloads-directory walk. -/
def recorder_main (env : RecEnv) (fuel : Nat) : Except PyErr CacheData :=
  match env.pathname with
  | none => .error .typeError
  | some pn =>
    match env.sizeOf pn with
    | none => .error .oserror
    | some sz =>
      match env.recipe_path with
      | none => .error .typeError
      | some r =>
        match find_downloads_dir fuel pn with
        | none => .error .nonTermination
        | some dd =>
          let base := truthyS env.etag || truthyS env.last_modified || (sz != 0)
          let first := primaryRecord env pn sz
          if (env.listdir dd).length > 1 then
            match populate_multiple_dls env dd pn with
            | .error e => .error e
            | .ok bonus =>
              if bonus ≠ [] then .ok (recorderFinal env (pySplit r).2 true ([first] ++ bonus))
              else .ok (recorderFinal env (pySplit r).2 base [first])
          else .ok (recorderFinal env (pySplit r).2 base [first])

/-- The modification condition of the recorder step, phrased over the
downloads directory it located and the bonus records it collected. -/
def recorderModifiedCond (env : RecEnv) (sz : Nat) (dd : String) (bonus : List DlMd) : Bool :=
  truthyS env.etag || truthyS env.last_modified || (sz != 0) ||
    (decide ((env.listdir dd).length > 1) && !bonus.isEmpty)

/-! ## Shared helper lemmas -/

/-- Appending the empty string on the left is the identity. -/
lemma string_empty_append (s : String) : "" ++ s = s := by
  cases s
  rfl

/-- joinKeys of a single key is that key. -/
lemma joinKeys_single (k : String) : joinKeys [k] = k := by
  show "" ++ k = k
  exact string_empty_append k

/-! ## C3: CacheStore load behaviour -/

/-- C3 counterexample: on a cache file holding malformed JSON,
load_cached_attributes raises the decode error (a ValueError) instead of
returning an empty mapping, refuting the claim that load never raises. -/
theorem c3_counterexample : load_cached_attributes (some none) = .error .valueError := rfl

/-- C3 (amended): load_cached_attributes returns the decoded mapping on
valid JSON and an empty mapping on a missing file, but raises the decode
error on malformed content; the recorder-side loader
get_latest_recipe_run_info returns an empty mapping on both missing and
malformed content. -/
theorem c3_amended :
    (∀ d : CacheData, load_cached_attributes (some (some d)) = .ok d) ∧
    load_cached_attributes none = .ok [] ∧
    load_cached_attributes (some none) = .error .valueError ∧
    (∀ d : CacheData, get_latest_recipe_run_info (some (some d)) = d) ∧
    get_latest_recipe_run_info none = [] ∧
    get_latest_recipe_run_info (some none) = [] :=
  ⟨fun _ => rfl, rfl, rfl, fun _ => rfl, rfl, rfl⟩

/-! ## C6: home-directory rewrite -/

/-- C6: during placeholder replication the home-directory rewrite fires iff
the short name recorded between the /Users/ and /Library markers of the
cached directory path differs from the console user's short name; when they
are equal both paths are returned exactly unchanged, and when they differ
every occurrence of the recorded short name in both the directory and the
file path is replaced by the console user's short name (Python
str.replace). -/
theorem c6_theorem (console_user cache_path pathname : String) :
    (targetHomeDir cache_path = console_user →
      homeDirRewrite console_user cache_path pathname = (cache_path, pathname)) ∧
    (targetHomeDir cache_path ≠ console_user →
      homeDirRewrite console_user cache_path pathname =
        (pyReplace cache_path (targetHomeDir cache_path) console_user,
         pyReplace pathname (targetHomeDir cache_path) console_user)) := by
  constructor
  · intro h
    simp [homeDirRewrite, h]
  · intro h
    simp [homeDirRewrite, h]

/-- C6 witness: a concrete cached path recorded under alice with alice as
the console user is left exactly unchanged. -/
theorem c6_witness :
    targetHomeDir "/Users/alice/Library/AutoPkg/Cache/local.dl/downloads" = "alice" ∧
    homeDirRewrite "alice" "/Users/alice/Library/AutoPkg/Cache/local.dl/downloads"
        "/Users/alice/Library/AutoPkg/Cache/local.dl/downloads/app.dmg" =
      ("/Users/alice/Library/AutoPkg/Cache/local.dl/downloads",
       "/Users/alice/Library/AutoPkg/Cache/local.dl/downloads/app.dmg") :=
  ⟨by decide, ( c6_theorem "alice" _ _).1 (by decide)⟩

/-! ## C2: behaviour of Recipe.run on a non-zero tool exit -/

/-- Receipt-scanner oracle that resolves nothing. -/
def noReceipts : String → Option String × Option String := fun _ => (none, none)

/-- A report left on disk with a package summary row. -/
def c2Report : Report :=
  { failures := [],
    summary_results :=
      [("pkg_creator_summary_result",
        [("data_rows", [[("pkg_path", "/tmp/x/new.pkg"), ("version", "1.2.3")]])])] }

/-- C2 counterexample: when the external tool exits non-zero, Recipe.run
still parses the report file and, because the parsed built list is
non-empty, also sets the success flag; the recipe does not reach the
Failed state directly with parsing skipped, refuting the claim as stated. -/
theorem c2_counterexample :
    Recipe.run noReceipts true c2Report {} =
      .ok { success := true, error := true,
            results := some { built := [[("pkg_path", "/tmp/x/new.pkg"), ("version", "1.2.3")]],
                              downloaded := [], failed := [] },
            has_run := true } := rfl

/-- C2 (amended): a non-zero tool exit is caught and sets the error flag,
but the report is nevertheless parsed into the results and the success flag
is set exactly when the parsed built list is non-empty. -/
theorem c2_amended (rs : String → Option String × Option String) (rep : Report)
    (out : RunOutcome) (h : parse_report rs rep = .ok out) :
    Recipe.run rs true rep {} =
      .ok { success := !out.built.isEmpty, error := true, results := some out, has_run := true } := by
  by_cases hb : out.built = []
  · simp [Recipe.run, h, hb]
  · simp [Recipe.run, h, hb]

/-- C2 witness: an empty report on a failed run yields error true, parsed
empty results and success false. -/
theorem c2_witness :
    Recipe.run noReceipts true {} {} =
      .ok { success := false, error := true, results := some {}, has_run := true } := by
  exact c2_amended noReceipts {} {} rfl

/-! ## C1: fringe-build promotion -/

/-- A report whose summary results hold two package-summary keys with row
lists, plus a download whose path looks like a package file. -/
def c1Report : Report :=
  { failures := [],
    summary_results :=
      [("pkg_copier_summary_result", [("data_rows", [[("pkg_path", "/tmp/a/one.pkg")]])]),
       ("pkg_creator_summary_result", [("data_rows", [[("pkg_path", "/tmp/a/two.pkg")]])]),
       ("url_downloader_summary_result", [("data_rows", [[("download_path", "/tmp/dl/thing.pkg")]])])] }

/-- C1 counterexample: with two summary keys matching the pkg wildcard the
joined key misses the lookup, the package results read back empty, and the
fringe-build promotion appends an entry derived from the download path even
though package-summary rows are present, refuting the claim as stated. -/
theorem c1_counterexample :
    parse_report noReceipts c1Report =
      .ok { built := [[("pkg_path", "/tmp/dl/thing.pkg")]],
            downloaded := [[("download_path", "/tmp/dl/thing.pkg")]],
            failed := [] } := rfl

/-- C1 (amended): whenever exactly one summary_results key matches the pkg
wildcard and its value carries its data_rows row list, the fringe-build
promotion does not fire: built is exactly that row list and nothing derived
from a download path is appended, regardless of the download contents. -/
theorem c1_amended (rs : String → Option String × Option String) (rd : Report)
    (k : String) (v : SummaryVal)
    (hk : pkgMatchingKeys rd.summary_results = [k])
    (hv : List.lookup k rd.summary_results = some v)
    (hdr : List.lookup "data_rows" v ≠ none) :
    parse_report rs rd =
      .ok { built := getRows v,
            downloaded := getRows ((List.lookup "url_downloader_summary_result" rd.summary_results).getD []),
            failed := rd.failures } := by
  have hne : rd.summary_results ≠ [] := by
    intro h0
    rw [h0] at hk
    simp [pkgMatchingKeys] at hk
  have hvne : v ≠ [] := by
    intro h0
    rw [h0] at hdr
    simp [List.lookup] at hdr
  unfold parse_report
  rw [if_neg hne, hk, joinKeys_single, hv]
  simp [hvne]

/-- C1 witness: a report with a single pkg-matching summary key and
downloads present yields exactly the package rows as built. -/
theorem c1_witness :
    parse_report noReceipts
      { failures := [],
        summary_results :=
          [("pkg_creator_summary_result", [("data_rows", [[("pkg_path", "/tmp/b/built.pkg")]])]),
           ("url_downloader_summary_result", [("data_rows", [[("download_path", "/tmp/dl/also.pkg")]])])] } =
      .ok { built := [[("pkg_path", "/tmp/b/built.pkg")]],
            downloaded := [[("download_path", "/tmp/dl/also.pkg")]],
            failed := [] } := by
  exact c1_amended noReceipts _ "pkg_creator_summary_result"
    [("data_rows", [[("pkg_path", "/tmp/b/built.pkg")]])] (by decide) (by decide) (by decide)

/-! ## C4: the no-releases-found path -/

/-- A recipe run that errored with a failures list whose first message
carries the no-releases-found signal. -/
def c4Recipe : RecipeObj :=
  { found := true, recipe_name := "Chef.download.recipe", name := "Chef",
    success := false, error := true,
    results := some
      { built := [], downloaded := [],
        failed := [[("message",
            "Error in local.Chef: GitHubReleasesInfoProvider: No releases found for repo \x27chef/chef\x27"),
          ("traceback", "Traceback (most recent call last): ...")]] } }

/-- C4: at the failing input, _eval_recipe_results takes the bare return
(None) on the no-releases-found signal, and slack_alert, invoked outside
debug mode with a webhook configured, raises a TypeError while unpacking
that None into the title and description pair; no notification is
attempted, but the exception is not an AttributeError, so the run loop does
not catch it and processing aborts instead of continuing to the next
recipe. -/
theorem c4_theorem :
    eval_recipe_results c4Recipe = .ok none ∧
    slack_alert false (some "https://hooks.example.com/services/T000") c4Recipe =
      .error .typeError := by
  constructor
  · rfl
  · rfl

/-! ## C5: malformed records during placeholder replication -/

/-- Replicator environment: console user bob, and any shell command quoting
the literal None (a mkfile invoked with a missing byte size) exits
non-zero. -/
def c5Env : ReplEnv :=
  { consoleUser := "bob", cmdFails := fun c => strContains c "\x27None\x27" }

/-- A cached record whose dl_size_in_bytes field is missing. -/
def c5BadSize : DlMd :=
  { pathname := some "/Users/alice/Library/AutoPkg/Cache/local.x/downloads/a.dmg" }

/-- A well-formed cached record. -/
def c5Good : DlMd :=
  { pathname := some "/Users/alice/Library/AutoPkg/Cache/local.x/downloads/b.dmg",
    dl_size_in_bytes := some "2048" }

/-- C5 counterexample: a record missing its byte size renders the literal
None into the mkfile command, whose non-zero exit raises CalledProcessError;
only TypeError is caught by the per-record handler, so the exception
propagates and the following well-formed record is never replicated — a
single record's failure does abort replication of the remaining records,
refuting the claim as stated. -/
theorem c5_counterexample :
    create_file_and_attributes c5Env
        [("X.recipe", { download_metadata := some [c5BadSize, c5Good] })] =
      ([], some .calledProcessError) := rfl

/-- C5 (amended): a record whose missing pathname raises a TypeError
mid-step is caught, logged with the offending recipe key and record, and
replication continues with the remaining records exactly as if the record
were absent; only failures that raise other exceptions (a shell command
exiting non-zero) abort the batch. -/
theorem c5_amended (env : ReplEnv) (key : String) (bad : DlMd) (rest : List DlMd)
    (h : bad.pathname = none) :
    runRecords env key (bad :: rest) =
      (criticalLog key bad :: (runRecords env key rest).1, (runRecords env key rest).2) := by
  simp [runRecords, processRecord, h]

/-- C5 witness: a pathname-less record is logged and the loop finishes
cleanly. -/
theorem c5_witness :
    runRecords c5Env "X.recipe" [{ pathname := none }] =
      ([criticalLog "X.recipe" { pathname := none }], none) := by
  exact c5_amended c5Env "X.recipe" { pathname := none } [] rfl

/-! ## C9: the upward walk to the downloads directory -/

/-- C9 counterexample: walking up from a pathname under a directory merely
ending in downloads, the loop stops at that directory, whose own name is
my_downloads, not downloads — the walk matches the downloads suffix rather
than a literal name, so it does not return an ancestor literally named
downloads (none exists for this input); and for pathnames with no
suffix-matching ancestor at all the source loop never terminates, since the
parent of the root is the root. -/
theorem c9_counterexample :
    find_downloads_dir 50 "/opt/my_downloads/f.dmg" = some "/opt/my_downloads" ∧
    (pySplit "/opt/my_downloads").2 ≠ "downloads" := by
  constructor
  · rfl
  · decide

/-- C9 (amended): whenever some iterate of the parent map applied to the
pathname ends with the downloads suffix, the walk terminates and returns
the first (hence nearest) such iterate — matched by the string suffix
downloads, starting at the pathname itself; pathnames with no such iterate
make the loop spin forever. -/
theorem c9_amended (p : String) (n : Nat)
    (h : pyEndswith (parentIter n p) "downloads" = true) :
    ∃ j, j ≤ n ∧ find_downloads_dir n p = some (parentIter j p) ∧
      pyEndswith (parentIter j p) "downloads" = true ∧
      ∀ i < j, pyEndswith (parentIter i p) "downloads" = false := by
  induction n generalizing p with
  | zero =>
    refine ⟨0, le_refl 0, ?_, h, ?_⟩
    · show (if pyEndswith p "downloads" then some p else none) = some p
      rw [show parentIter 0 p = p from rfl] at h
      rw [h]
      rfl
    · intro i hi
      exact absurd hi (Nat.not_lt_zero i)
  | succ n ih =>
    by_cases hp : pyEndswith p "downloads" = true
    · refine ⟨0, Nat.zero_le _, ?_, hp, ?_⟩
      · show (if pyEndswith p "downloads" then some p else find_downloads_dir n (pyPathParent p)) = some p
        rw [hp]
        rfl
      · intro i hi
        exact absurd hi (Nat.not_lt_zero i)
    · have hp' : pyEndswith p "downloads" = false := Bool.eq_false_iff.mpr hp
      have h' : pyEndswith (parentIter n (pyPathParent p)) "downloads" = true := h
      obtain ⟨j, hj, hfind, hend, hmin⟩ := ih (pyPathParent p) h'
      refine ⟨j + 1, Nat.succ_le_succ hj, ?_, hend, ?_⟩
      · show (if pyEndswith p "downloads" then some p else find_downloads_dir n (pyPathParent p)) =
          some (parentIter j (pyPathParent p))
        rw [hp']
        simpa using hfind
      · intro i hi
        cases i with
        | zero => exact hp'
        | succ i' => exact hmin i' (Nat.lt_of_succ_lt_succ hi)

/-- C9 witness: from a pathname under a genuine downloads directory the
walk returns that directory, the nearest suffix-matching ancestor. -/
theorem c9_witness :
    ∃ j, j ≤ 1 ∧
      find_downloads_dir 1 "/Users/u/Library/AutoPkg/Cache/local.app/downloads/app.dmg" =
        some (parentIter j "/Users/u/Library/AutoPkg/Cache/local.app/downloads/app.dmg") ∧
      pyEndswith (parentIter j "/Users/u/Library/AutoPkg/Cache/local.app/downloads/app.dmg") "downloads" = true ∧
      ∀ i < j, pyEndswith (parentIter i "/Users/u/Library/AutoPkg/Cache/local.app/downloads/app.dmg") "downloads" = false := by
  exact c9_amended "/Users/u/Library/AutoPkg/Cache/local.app/downloads/app.dmg" 1 (by decide)

/-! ## Dict lemmas for the recorder's cache mapping -/

/-- Looking up the key just assigned returns the assigned value. -/
lemma lookup_aset_self (d : CacheData) (k : String) (v : CacheEntry) :
    List.lookup k (aset d k v) = some v := by
  induction d with
  | nil => simp [aset, List.lookup]
  | cons hd t ih =>
    obtain ⟨k', v'⟩ := hd
    by_cases h : k' = k
    · subst h
      simp [aset, List.lookup]
    · have hbeq : (k == k') = false := beq_eq_false_iff_ne.mpr (Ne.symm h)
      simp [aset, h, List.lookup, hbeq, ih]

/-- Assigning one key leaves lookups of any other key unchanged. -/
lemma lookup_aset_ne (d : CacheData) (k k' : String) (v : CacheEntry) (h : k ≠ k') :
    List.lookup k (aset d k' v) = List.lookup k d := by
  have hbeq : (k == k') = false := beq_eq_false_iff_ne.mpr h
  induction d with
  | nil => simp [aset, List.lookup, hbeq]
  | cons hd t ih =>
    obtain ⟨a, b⟩ := hd
    by_cases ha : a = k'
    · subst ha
      simp [aset, List.lookup, hbeq]
    · simp [aset, ha, List.lookup, ih]

/-- Updating the entry under a present key transforms exactly that value. -/
lemma lookup_update_self (d : CacheData) (k : String) (f : CacheEntry → CacheEntry)
    (e : CacheEntry) (h : List.lookup k d = some e) :
    List.lookup k (updateEntry d k f) = some (f e) := by
  induction d with
  | nil => simp [List.lookup] at h
  | cons hd t ih =>
    obtain ⟨a, b⟩ := hd
    by_cases ha : a = k
    · subst ha
      simp [List.lookup] at h
      subst h
      simp [updateEntry, List.lookup]
    · have hbeq : (k == a) = false := beq_eq_false_iff_ne.mpr (Ne.symm ha)
      simp [List.lookup, hbeq] at h
      simp [updateEntry, ha, List.lookup, hbeq, ih h]

/-- Updating one key leaves lookups of any other key unchanged. -/
lemma lookup_update_ne (d : CacheData) (k k' : String) (f : CacheEntry → CacheEntry)
    (h : k ≠ k') :
    List.lookup k (updateEntry d k' f) = List.lookup k d := by
  induction d with
  | nil => simp [updateEntry]
  | cons hd t ih =>
    obtain ⟨a, b⟩ := hd
    by_cases ha : a = k'
    · subst ha
      have hbeq : (k == a) = false := by
        exact beq_eq_false_iff_ne.mpr h
      simp [updateEntry, List.lookup, hbeq]
    · simp [updateEntry, ha, List.lookup, ih]

/-- Looking up the recipe key after the insert step yields the previous
entry, or a fresh empty one. -/
lemma lookup_insert_self (env : RecEnv) (fn : String) :
    List.lookup fn (recorderInsert env fn) = some (prevEntry env fn) := by
  unfold recorderInsert prevEntry
  cases h0 : List.lookup fn (get_latest_recipe_run_info env.cacheFile) with
  | none => simp [h0, lookup_aset_self]
  | some e => simp [h0]

/-- The insert step does not touch other keys. -/
lemma lookup_insert_ne (env : RecEnv) (fn k : String) (h : k ≠ fn) :
    List.lookup k (recorderInsert env fn) = List.lookup k (get_latest_recipe_run_info env.cacheFile) := by
  simp only [recorderInsert]
  split
  · exact lookup_aset_ne _ _ _ _ h
  · rfl

/-- The stamp step rewrites exactly the timestamp of the recipe's entry. -/
lemma lookup_stamp_self (d : CacheData) (env : RecEnv) (fn : String) (cm : Bool)
    (e : CacheEntry) (h : List.lookup fn d = some e) :
    List.lookup fn (recorderStamp d env fn cm) =
      some { e with cache_timestamp := if cm then some env.now else e.cache_timestamp } := by
  unfold recorderStamp
  cases cm with
  | false => simpa using h
  | true =>
    simpa using lookup_update_self d fn (fun e => { e with cache_timestamp := some env.now }) e h

/-- The stamp step does not touch other keys. -/
lemma lookup_stamp_ne (d : CacheData) (env : RecEnv) (fn k : String) (cm : Bool)
    (h : k ≠ fn) :
    List.lookup k (recorderStamp d env fn cm) = List.lookup k d := by
  unfold recorderStamp
  split
  · exact lookup_update_ne _ _ _ _ h
  · rfl

/-- The store step rewrites exactly the record list of the recipe's entry. -/
lemma lookup_store_self (d : CacheData) (fn : String) (lst : List DlMd)
    (e : CacheEntry) (h : List.lookup fn d = some e) :
    List.lookup fn (recorderStore d fn lst) =
      some { e with download_metadata := if lst ≠ [] then some lst else e.download_metadata } := by
  unfold recorderStore
  by_cases hl : lst = []
  · simpa [hl] using h
  · simpa [hl] using lookup_update_self d fn (fun e => { e with download_metadata := some lst }) e h

/-- The store step does not touch other keys. -/
lemma lookup_store_ne (d : CacheData) (fn k : String) (lst : List DlMd) (h : k ≠ fn) :
    List.lookup k (recorderStore d fn lst) = List.lookup k d := by
  unfold recorderStore
  split
  · exact lookup_update_ne _ _ _ _ h
  · rfl

/-- The entry the recorder step leaves under the current recipe key: the
timestamp is refreshed exactly when the step was marked modified, and the
record list is stored whenever it is non-empty, the previous values
surviving otherwise. -/
lemma lookup_recorderFinal_self (env : RecEnv) (fn : String) (cm : Bool) (lst : List DlMd) :
    List.lookup fn (recorderFinal env fn cm lst) =
      some { cache_timestamp := if cm then some env.now else (prevEntry env fn).cache_timestamp,
             download_metadata := if lst ≠ [] then some lst else (prevEntry env fn).download_metadata } := by
  unfold recorderFinal
  rw [lookup_store_self _ _ _ _ (lookup_stamp_self _ _ _ _ _ (lookup_insert_self env fn))]

/-- The recorder step leaves every other recipe's entry exactly as loaded. -/
lemma lookup_recorderFinal_ne (env : RecEnv) (fn k : String) (cm : Bool) (lst : List DlMd)
    (h : k ≠ fn) :
    List.lookup k (recorderFinal env fn cm lst) =
      List.lookup k (get_latest_recipe_run_info env.cacheFile) := by
  unfold recorderFinal
  rw [lookup_store_ne _ _ _ _ h, lookup_stamp_ne _ _ _ _ _ h, lookup_insert_ne _ _ _ h]

/-- Characterisation of a successful recorder step: it found the pathname,
its size, the recipe path and the downloads directory, possibly collected
bonus records (only when the directory listing exceeds one entry), and
wrote exactly the recorderFinal mapping with the modification condition. -/
lemma recorder_main_ok_shape (env : RecEnv) (fuel : Nat) (d : CacheData)
    (h : recorder_main env fuel = .ok d) :
    ∃ pn sz r dd bonus,
      env.pathname = some pn ∧ env.sizeOf pn = some sz ∧ env.recipe_path = some r ∧
      find_downloads_dir fuel pn = some dd ∧
      (((env.listdir dd).length > 1 ∧ populate_multiple_dls env dd pn = .ok bonus) ∨
        (¬(env.listdir dd).length > 1 ∧ bonus = [])) ∧
      d = recorderFinal env (pySplit r).2 (recorderModifiedCond env sz dd bonus)
            ([primaryRecord env pn sz] ++ bonus) := by
  unfold recorder_main at h
  cases hpn : env.pathname with
  | none => rw [hpn] at h; exact absurd h (by simp)
  | some pn =>
  rw [hpn] at h
  dsimp only at h
  cases hsz : env.sizeOf pn with
  | none => rw [hsz] at h; exact absurd h (by simp)
  | some sz =>
  rw [hsz] at h
  dsimp only at h
  cases hr : env.recipe_path with
  | none => rw [hr] at h; exact absurd h (by simp)
  | some r =>
  rw [hr] at h
  dsimp only at h
  cases hdd : find_downloads_dir fuel pn with
  | none => rw [hdd] at h; exact absurd h (by simp)
  | some dd =>
  rw [hdd] at h
  dsimp only at h
  by_cases hl : (env.listdir dd).length > 1
  · rw [if_pos hl] at h
    cases hb : populate_multiple_dls env dd pn with
    | error e => rw [hb] at h; exact absurd h (by simp)
    | ok bonus =>
      rw [hb] at h
      dsimp only at h
      by_cases hbe : bonus = []
      · rw [if_neg (by simp [hbe])] at h
        refine ⟨pn, sz, r, dd, bonus, rfl, hsz, rfl, hdd, Or.inl ⟨hl, hb⟩, ?_⟩
        have hcond : recorderModifiedCond env sz dd bonus =
            (truthyS env.etag || truthyS env.last_modified || (sz != 0)) := by
          simp [recorderModifiedCond, hbe]
        rw [hcond, hbe]
        simpa using (Except.ok.inj h).symm
      · rw [if_pos hbe] at h
        refine ⟨pn, sz, r, dd, bonus, rfl, hsz, rfl, hdd, Or.inl ⟨hl, hb⟩, ?_⟩
        have hcond : recorderModifiedCond env sz dd bonus = true := by
          have hie : bonus.isEmpty = false := by
            cases bonus with
            | nil => exact absurd rfl hbe
            | cons a t => rfl
          simp [recorderModifiedCond, hl, hie]
        rw [hcond]
        exact (Except.ok.inj h).symm
  · rw [if_neg hl] at h
    refine ⟨pn, sz, r, dd, [], rfl, hsz, rfl, hdd, Or.inr ⟨hl, rfl⟩, ?_⟩
    have hcond : recorderModifiedCond env sz dd [] =
        (truthyS env.etag || truthyS env.last_modified || (sz != 0)) := by
      simp [recorderModifiedCond]
    rw [hcond]
    simpa using (Except.ok.inj h).symm

/-! ## C8: the recorder modifies at most the current recipe's key -/

/-- C8: for every other recipe key, the entry in the mapping the recorder
writes back is exactly the entry that was loaded from the cache file. -/
theorem c8_theorem (env : RecEnv) (fuel : Nat) (d : CacheData) (r k : String)
    (hr : env.recipe_path = some r) (h : recorder_main env fuel = .ok d)
    (hk : k ≠ (pySplit r).2) :
    List.lookup k d = List.lookup k (get_latest_recipe_run_info env.cacheFile) := by
  obtain ⟨pn, sz, r', dd, bonus, hpn, hsz, hr', hdd, hb, hd⟩ :=
    recorder_main_ok_shape env fuel d h
  have hrr : r' = r := by
    rw [hr] at hr'
    exact (Option.some_inj.mp hr').symm
  subst hrr
  rw [hd]
  exact lookup_recorderFinal_ne env _ k _ _ hk

/-- An entry cached for an unrelated recipe in a previous run. -/
def c8Prev : CacheEntry :=
  { cache_timestamp := some "2020-01-01 00:00:00", download_metadata := none }

/-- C8 witness environment: the loaded cache already holds an entry for
another recipe. -/
def c8Env : RecEnv :=
  { pathname := some "/Users/w/Library/AutoPkg/Cache/local.new/downloads/new.dmg",
    recipe_path := some "/tmp/recipes/New.recipe",
    cacheFile := some (some [("Other.recipe", c8Prev)]),
    sizeOf := fun p => if p = "/Users/w/Library/AutoPkg/Cache/local.new/downloads/new.dmg" then some 0 else none,
    listdir := fun _ => ["new.dmg"],
    walkFiles := fun _ => [],
    xattrEtag := fun _ => "",
    xattrLastMod := fun _ => "",
    whereFroms := fun _ => "",
    fileType := fun _ => "",
    now := "2026-10-12 12:00:00" }

/-- The mapping the recorder writes for c8Env. -/
def c8Data : CacheData :=
  [("Other.recipe", c8Prev),
   ("New.recipe",
    { cache_timestamp := none,
      download_metadata := some
        [{ url := none,
           pathname := some "/Users/w/Library/AutoPkg/Cache/local.new/downloads/new.dmg",
           etag := none, last_modified := none, dl_size_in_bytes := none }] })]

/-- C8 witness: after recording New.recipe, the entry previously stored for
Other.recipe reads back exactly as it was loaded. -/
theorem c8_witness :
    List.lookup "Other.recipe" c8Data =
      List.lookup "Other.recipe" (get_latest_recipe_run_info c8Env.cacheFile) := by
  exact c8_theorem c8Env 5 c8Data "/tmp/recipes/New.recipe" "Other.recipe" rfl (by rfl) (by decide)

/-! ## C7: when the recorder stamps the cache entry -/

/-- C7 environment: a run that knew a url and a pathname whose file is
empty on disk, with no etag, no last-modified value and a single-entry
downloads directory. -/
def c7Env : RecEnv :=
  { pathname := some "/Users/u/Library/AutoPkg/Cache/local.app/downloads/app.dmg",
    recipe_path := some "/tmp/recipes/App.recipe",
    url := some "https://example.com/app.dmg",
    sizeOf := fun p => if p = "/Users/u/Library/AutoPkg/Cache/local.app/downloads/app.dmg" then some 0 else none,
    listdir := fun _ => ["app.dmg"],
    walkFiles := fun _ => [],
    xattrEtag := fun _ => "",
    xattrLastMod := fun _ => "",
    whereFroms := fun _ => "",
    fileType := fun _ => "",
    now := "2026-10-12 10:00:00" }

/-- The mapping the recorder writes for c7Env. -/
def c7Data : CacheData :=
  [("App.recipe",
    { cache_timestamp := none,
      download_metadata := some
        [{ url := some "https://example.com/app.dmg",
           pathname := some "/Users/u/Library/AutoPkg/Cache/local.app/downloads/app.dmg",
           etag := none, last_modified := none, dl_size_in_bytes := none }] })]

/-- C7 counterexample: the url attribute was found and recorded for the
primary download record, yet the entry is not marked modified — no
cache_timestamp is stamped — because only etag, last_modified, a non-zero
size or a bonus record set the modified flag; this refutes the claimed iff,
which lists url (and pathname) among the stamping attributes. -/
theorem c7_counterexample :
    recorder_main c7Env 5 = .ok c7Data ∧
    (List.lookup "App.recipe" c7Data).map (fun e => e.cache_timestamp) = some none ∧
    ((List.lookup "App.recipe" c7Data).bind (fun e => e.download_metadata)).map
        (fun l => l.map (fun m => m.url)) = some [some "https://example.com/app.dmg"] := by
  refine ⟨?_, rfl, rfl⟩
  rfl

/-- C7 (amended): after the recorder's post-run step, the recipe's entry
carries a cache_timestamp stamped with the current time iff an etag, a
last-modified value or a non-zero on-disk size was found for the primary
download record, or the downloads listing held more than one entry and at
least one bonus record was collected; a url or pathname alone does not mark
the entry modified, and an unmodified entry keeps its previously stored
timestamp. -/
theorem c7_amended (env : RecEnv) (fuel : Nat) (pn : String) (sz : Nat) (r dd : String)
    (bonus : List DlMd) (d : CacheData)
    (hp : env.pathname = some pn) (hs : env.sizeOf pn = some sz)
    (hr : env.recipe_path = some r) (hd : find_downloads_dir fuel pn = some dd)
    (hb : ((env.listdir dd).length > 1 ∧ populate_multiple_dls env dd pn = .ok bonus) ∨
          (¬(env.listdir dd).length > 1 ∧ bonus = []))
    (h : recorder_main env fuel = .ok d) :
    ∃ e, List.lookup (pySplit r).2 d = some e ∧
      e.cache_timestamp = (if recorderModifiedCond env sz dd bonus then some env.now
                           else (prevEntry env (pySplit r).2).cache_timestamp) := by
  obtain ⟨pn', sz', r', dd', bonus', hpn', hsz', hr', hdd', hb', hd'⟩ :=
    recorder_main_ok_shape env fuel d h
  have epn : pn' = pn := by
    rw [hp] at hpn'
    exact (Option.some_inj.mp hpn').symm
  subst epn
  have esz : sz' = sz := by
    rw [hs] at hsz'
    exact (Option.some_inj.mp hsz').symm
  subst esz
  have err : r' = r := by
    rw [hr] at hr'
    exact (Option.some_inj.mp hr').symm
  subst err
  have edd : dd' = dd := by
    rw [hd] at hdd'
    exact (Option.some_inj.mp hdd').symm
  subst edd
  have ebonus : bonus' = bonus := by
    rcases hb with ⟨hl, hpop⟩ | ⟨hl, hbe⟩
    · rcases hb' with ⟨_, hpop'⟩ | ⟨hl', _⟩
      · rw [hpop] at hpop'
        exact (Except.ok.inj hpop').symm
      · exact absurd hl hl'
    · rcases hb' with ⟨hl', _⟩ | ⟨_, hbe'⟩
      · exact absurd hl' hl
      · rw [hbe, hbe']
  subst ebonus
  rw [hd', lookup_recorderFinal_self]
  exact ⟨_, rfl, rfl⟩

/-- C7 witness: for the concrete environment where only a url and an
empty file were found, the entry keeps no timestamp. -/
theorem c7_witness :
    ∃ e, List.lookup "App.recipe" c7Data = some e ∧ e.cache_timestamp = none := by
  obtain ⟨e, h1, h2⟩ :=
    c7_amended c7Env 5 "/Users/u/Library/AutoPkg/Cache/local.app/downloads/app.dmg" 0
      "/tmp/recipes/App.recipe" "/Users/u/Library/AutoPkg/Cache/local.app/downloads" [] c7Data
      rfl rfl rfl (by decide) (Or.inr ⟨by decide, rfl⟩) (by rfl)
  exact ⟨e, h1, by simpa using h2⟩

/-! ## C10: every written record carries a non-empty pathname -/

/-- Joining onto a non-empty final component never yields the empty path. -/
lemma pyJoin_ne_empty (a b : String) (hb : b ≠ "") : pyJoin a b ≠ "" := by
  have hbd : b.data ≠ [] := by
    intro h0
    apply hb
    cases b
    simp at h0
    simp [h0]
  unfold pyJoin
  split
  · exact hb
  · split
    · intro hc
      apply hbd
      have := congrArg String.data hc
      rw [String.data_append] at this
      exact (List.append_eq_nil.mp this).2
    · intro hc
      apply hbd
      have := congrArg String.data hc
      rw [String.data_append, String.data_append] at this
      exact (List.append_eq_nil.mp this).2

/-- Every bonus record collected by the walk of populate_multiple_dls holds
a non-empty pathname, provided the walk only reports non-empty file names
(as os.walk does). -/
lemma populateGo_pathname (env : RecEnv) (known : String) (l : List (String × String))
    (hw : ∀ root name, (root, name) ∈ l → name ≠ "")
    (bonus : List DlMd) (h : populateGo env known l = .ok bonus) :
    ∀ md ∈ bonus, ∃ q, md.pathname = some q ∧ q ≠ "" := by
  induction l generalizing bonus with
  | nil =>
    have : bonus = [] := (Except.ok.inj h).symm
    subst this
    intro md hmd
    simp at hmd
  | cons hd t ih =>
    obtain ⟨root, name⟩ := hd
    unfold populateGo at h
    dsimp only at h
    cases hsz : env.sizeOf (pyJoin root name) with
    | none => rw [hsz] at h; exact absurd h (by simp)
    | some sz =>
    rw [hsz] at h
    dsimp only at h
    cases hrec : populateGo env known t with
    | error e => rw [hrec] at h; exact absurd h (by simp)
    | ok rest =>
    rw [hrec] at h
    dsimp only at h
    have hrest : ∀ md ∈ rest, ∃ q, md.pathname = some q ∧ q ≠ "" :=
      ih (fun r n hm => hw r n (List.mem_cons_of_mem _ hm)) rest hrec
    by_cases hcand : sz > 500000 ∧ pyJoin root name ≠ known
    · rw [if_pos hcand] at h
      by_cases hacc : env.xattrLastMod (pyJoin root name) != "" ∨
          strContains (env.fileType (pyJoin root name)) "archive" ∨
          strContains (env.fileType (pyJoin root name)) "compressed"
      · rw [if_pos hacc] at h
        have hb : bonus = bonusRecord env (pyJoin root name) sz :: rest := (Except.ok.inj h).symm
        subst hb
        intro md hmd
        rcases List.mem_cons.mp hmd with hmd | hmd
        · subst hmd
          have hne : pyJoin root name ≠ "" :=
            pyJoin_ne_empty root name (hw root name (List.mem_cons_self _ _))
          refine ⟨pyJoin root name, ?_, hne⟩
          simp [bonusRecord, hne]
        · exact hrest md hmd
      · rw [if_neg hacc] at h
        have hb : bonus = rest := (Except.ok.inj h).symm
        subst hb
        exact hrest
    · rw [if_neg hcand] at h
      have hb : bonus = rest := (Except.ok.inj h).symm
      subst hb
      exact hrest

/-- C10: every DownloadRecord the recorder writes into the current
recipe's download_metadata carries a non-empty pathname — the primary
record holds the known pathname (whose size probe succeeded, which rules
out the empty name since no file has an empty path), and every bonus record
holds the scanned file's joined path. -/
theorem c10_theorem (env : RecEnv) (fuel : Nat) (d : CacheData) (pn r : String)
    (hp : env.pathname = some pn) (hr : env.recipe_path = some r)
    (h : recorder_main env fuel = .ok d)
    (hw : ∀ dir root name, (root, name) ∈ env.walkFiles dir → name ≠ "")
    (hs0 : env.sizeOf "" = none) :
    ∀ e, List.lookup (pySplit r).2 d = some e →
      ∀ lst, e.download_metadata = some lst →
        ∀ md ∈ lst, ∃ q, md.pathname = some q ∧ q ≠ "" := by
  obtain ⟨pn', sz, r', dd, bonus, hpn', hsz', hr', hdd', hb', hd'⟩ :=
    recorder_main_ok_shape env fuel d h
  have epn : pn = pn' := by
    rw [hp] at hpn'
    exact Option.some_inj.mp hpn'
  subst epn
  have err : r = r' := by
    rw [hr] at hr'
    exact Option.some_inj.mp hr'
  subst err
  have hpn_ne : pn ≠ "" := by
    intro h0
    rw [h0, hs0] at hsz'
    exact absurd hsz' (by simp)
  intro e he lst hlst md hmd
  rw [hd', lookup_recorderFinal_self] at he
  have hmd_eq : e.download_metadata = some (primaryRecord env pn sz :: bonus) := by
    rw [← Option.some_inj.mp he]
    simp
  rw [hmd_eq] at hlst
  have hlst' : lst = primaryRecord env pn sz :: bonus := (Option.some_inj.mp hlst).symm
  subst hlst'
  rcases List.mem_cons.mp hmd with hmd | hmd
  · subst hmd
    refine ⟨pn, ?_, hpn_ne⟩
    simp [primaryRecord, hpn_ne]
  · rcases hb' with ⟨_, hpop⟩ | ⟨_, hbe⟩
    · exact populateGo_pathname env pn (env.walkFiles dd)
        (fun root name hm => hw dd root name hm) bonus hpop md hmd
    · subst hbe
      simp at hmd

/-- C10 witness environment: a two-megabyte download under a downloads
directory. -/
def c10Env : RecEnv :=
  { pathname := some "/Users/v/Library/AutoPkg/Cache/local.big/downloads/big.dmg",
    recipe_path := some "/tmp/recipes/Big.recipe",
    sizeOf := fun p => if p = "/Users/v/Library/AutoPkg/Cache/local.big/downloads/big.dmg" then some 2000000 else none,
    listdir := fun _ => ["big.dmg"],
    walkFiles := fun _ => [],
    xattrEtag := fun _ => "",
    xattrLastMod := fun _ => "",
    whereFroms := fun _ => "",
    fileType := fun _ => "",
    now := "2026-10-12 11:00:00" }

/-- The mapping the recorder writes for c10Env. -/
def c10Data : CacheData :=
  [("Big.recipe",
    { cache_timestamp := some "2026-10-12 11:00:00",
      download_metadata := some
        [{ url := none,
           pathname := some "/Users/v/Library/AutoPkg/Cache/local.big/downloads/big.dmg",
           etag := none, last_modified := none, dl_size_in_bytes := some "2000000" }] })]

/-- C10 witness: the record written for the two-megabyte run carries its
non-empty pathname. -/
theorem c10_witness :
    ∃ q, ({ url := none,
            pathname := some "/Users/v/Library/AutoPkg/Cache/local.big/downloads/big.dmg",
            etag := none, last_modified := none,
            dl_size_in_bytes := some "2000000" } : DlMd).pathname = some q ∧ q ≠ "" := by
  refine c10_theorem c10Env 5 c10Data
    "/Users/v/Library/AutoPkg/Cache/local.big/downloads/big.dmg" "/tmp/recipes/Big.recipe"
    rfl rfl (by rfl) ?_ (by rfl) _ (by rfl) _ (by rfl) _ ?_
  · intro dir root name hm
    simp [c10Env] at hm
  · simp

end CARL
